import Mathlib

/-!
Verification of the Taekwondo Kick Detection System (`final.py`) against its
natural-language specification.

The Python module is shallowly embedded below.  Real-valued sensor data is
modelled with `ℚ` (all arithmetic in the source is exact comparisons and
affine rescaling, so rationals are a faithful carrier).  Fallible I/O
(load-cell reads, ADC reads, the BLE characteristic read, the HTTP upload)
is modelled with `Except String _` inputs: `Except.ok v` is a read that
returned `v`, `Except.error e` is a raised-and-caught Python exception.
The two process-wide mutable globals (`force_history`, `last_kick_time`)
become an explicit `DetectorState` threaded through `detect_impact`.
-/

/-! ## Configuration constants (final.py lines 34-49, 354) -/

/-- `KICK_THRESHOLD_KG = 4.0` : minimum force in kg to register a valid kick. -/
def KICK_THRESHOLD_KG : ℚ := 4

/-- `KICK_COOLDOWN = 1.0` : minimum seconds between kick detections. -/
def KICK_COOLDOWN : ℚ := 1

/-- `FSR_MIN = -1` : minimum raw ADC value for FSR calibration. -/
def FSR_MIN : ℚ := -1

/-- `FSR_MAX = 1873` : maximum raw ADC value for FSR calibration. -/
def FSR_MAX : ℚ := 1873

/-- `WARNING_THRESHOLD = 50.0` : FSR percentage threshold for accuracy. -/
def WARNING_THRESHOLD : ℚ := 50

/-- The literal `timeout=10` passed to `requests.post` in `main`. -/
def UPLOAD_TIMEOUT_SECONDS : ℚ := 10

/-! ## fsr_percentage (final.py lines 59-77) -/

/-- Embeds `fsr_percentage(raw, f_min, f_max)`: convert a raw ADC reading to
a clamped 0-100% value. -/
def fsr_percentage (raw f_min f_max : ℚ) : ℚ :=
  if f_max ≤ f_min then 0
  else
    let raw' := max f_min (min f_max raw)
    let percent := (raw' - f_min) / (f_max - f_min) * 100
    max 0 (min 100 percent)

/-! ## determine_accuracy (final.py lines 222-236) -/

/-- Embeds `determine_accuracy(max_fsr_percent)`. -/
def determine_accuracy (max_fsr_percent : ℚ) : String :=
  if WARNING_THRESHOLD ≤ max_fsr_percent then "lower accuracy"
  else "higher accuracy"

/-! ## determine_kick_type (final.py lines 239-256) -/

/-- Embeds `determine_kick_type(weight_kg)`. -/
def determine_kick_type (weight_kg : ℚ) : String :=
  if 4 ≤ weight_kg ∧ weight_kg < 5 then "Light Kick"
  else if 5 ≤ weight_kg ∧ weight_kg ≤ 6.5 then "Medium Kick"
  else if 6.5 < weight_kg then "Strong Kick"
  else "No or very light contact"

/-! ## read_fsr_sensors (final.py lines 140-159)

`FSR_CHANNELS = [0, 1, 3]`, so one poll is three raw ADC reads; the whole
`try` block either returns all three raw values or raises, hence the
`Except String (ℚ × ℚ × ℚ)` input.  Python's `max` over the three-element
percentage list is the left fold `max (max p0 p1) p3`. -/

/-- Embeds `read_fsr_sensors()`: max pressure percentage over the three FSR
channels, `0.0` if the ADC read raised. -/
def read_fsr_sensors (adcReads : Except String (ℚ × ℚ × ℚ)) : ℚ :=
  match adcReads with
  | Except.ok (r0, r1, r3) =>
      max (max (fsr_percentage r0 FSR_MIN FSR_MAX)
               (fsr_percentage r1 FSR_MIN FSR_MAX))
          (fsr_percentage r3 FSR_MIN FSR_MAX)
  | Except.error _ => 0

/-! ## detect_impact (final.py lines 181-219)

The globals `force_history` / `last_kick_time` become `DetectorState`;
`time.time()` becomes the explicit argument `current_time`.
`force_history.pop(0)` is `List.tail` of the appended buffer, and the
Python index `force_history[-2]` is `history.dropLast.getLast?`. -/

/-- The detector's mutable globals: `force_history` and `last_kick_time`. -/
structure DetectorState where
  force_history : List ℚ
  last_kick_time : ℚ
deriving DecidableEq, Repr

/-- Startup values (final.py lines 54-55): empty history, `last_kick_time = 0`. -/
def initState : DetectorState := { force_history := [], last_kick_time := 0 }

/-- Embeds `detect_impact(weight_kg)`: returns the fire decision together
with the updated global state. -/
def detect_impact (st : DetectorState) (current_time weight_kg : ℚ) :
    Bool × DetectorState :=
  let appended := st.force_history ++ [weight_kg]
  let history := if 3 < appended.length then appended.tail else appended
  if history.length < 2 then
    (false, { force_history := history, last_kick_time := st.last_kick_time })
  else if current_time - st.last_kick_time < KICK_COOLDOWN then
    (false, { force_history := history, last_kick_time := st.last_kick_time })
  else if KICK_THRESHOLD_KG ≤ weight_kg then
    match history.dropLast.getLast? with
    | some prev =>
        if prev < weight_kg then
          (true, { force_history := history, last_kick_time := current_time })
        else
          (false, { force_history := history, last_kick_time := st.last_kick_time })
    | none =>
        (false, { force_history := history, last_kick_time := st.last_kick_time })
  else
    (false, { force_history := history, last_kick_time := st.last_kick_time })

/-- Fire times of a detector run: feed `(time, weight)` samples in order,
record the timestamps of the samples on which `detect_impact` returned
`True`. -/
def fireTimes : DetectorState → List (ℚ × ℚ) → List ℚ
  | _, [] => []
  | st, (t, w) :: rest =>
      let r := detect_impact st t w
      if r.1 then t :: fireTimes r.2 rest else fireTimes r.2 rest

/-! ## calibrate_load_cell (final.py lines 102-137)

The operator-guided reads are injected: `offsetReading` models
`hx.get_raw_data_mean(readings=50)` and `weighedReading` models
`hx.get_data_mean(readings=100)` (each is a mean of raw readings, returned
by the driver; either may raise).  `known_weight_grams` models the parsed
`float(input(...))`.  Python raises `ZeroDivisionError` on
`reading / 0.0`; every raised exception is caught by the enclosing
`except`, which prints the error and returns (the process continues). -/

/-- Result of running the calibration routine. -/
inductive CalibResult where
  /-- Calibration succeeded and was written to the calibration file. -/
  | saved (offset scale_ratio : ℚ)
  /-- An exception was caught and printed (`Calibration error: ...`);
  no calibration was saved but the process did not crash. -/
  | reported (msg : String)
deriving DecidableEq, Repr

/-- Embeds `calibrate_load_cell()`. -/
def calibrate_load_cell (offsetReading weighedReading : Except String ℚ)
    (known_weight_grams : ℚ) : CalibResult :=
  match offsetReading with
  | Except.error e => CalibResult.reported e
  | Except.ok offset =>
    match weighedReading with
    | Except.error e => CalibResult.reported e
    | Except.ok reading =>
        if known_weight_grams = 0 then
          CalibResult.reported "ZeroDivisionError: float division by zero"
        else
          CalibResult.saved offset (reading / known_weight_grams)

/-! ## The main monitoring-loop body (final.py lines 294-363)

One iteration of the inner `while True` loop, after `read_load_cell_fast`
produced the sample `(weight_kg, force_newtons)` at time `current_time`.
The BLE speed read (lines 312-320), the FSR poll, the two timestamp
strings and the HTTP response are inputs; the iteration returns the
updated detector state and, on fire, the assembled event. -/

/-- The Firebase payload assembled in `main` (final.py lines 342-350). -/
structure KickRecord where
  force_of_kick_in_newton : ℚ
  pressure_at_edges_in_percentage : ℚ
  accuracy : String
  speed_of_kick_in_meters_per_second : ℚ
  timestamp_utc : String
  timestamp_local : String
  kick_detection_state : String
deriving DecidableEq, Repr

/-- Outcome of the single `requests.post` attempt (final.py lines 352-360). -/
inductive UploadOutcome where
  /-- status code 200: `Data sent to Firebase successfully!` -/
  | success
  /-- non-200 status code: `Firebase error: <code>` printed, loop continues. -/
  | httpError (code : Nat)
  /-- transport exception caught: `Firebase connection error: ...` printed. -/
  | transportError (msg : String)
deriving DecidableEq, Repr

/-- Embeds the upload `try` block: one `requests.post`, classified by its
response; a non-200 code or a raised exception is logged, never re-raised. -/
def upload_to_firebase (response : Except String Nat) : UploadOutcome :=
  match response with
  | Except.ok status_code =>
      if status_code = 200 then UploadOutcome.success
      else UploadOutcome.httpError status_code
  | Except.error e => UploadOutcome.transportError e

/-- Everything `main` produces for one detected kick: the uploaded record,
the printed kick-type classification, and the upload outcome. -/
structure KickEventOutput where
  record : KickRecord
  kick_type : String
  upload : UploadOutcome
deriving DecidableEq, Repr

/-- Embeds one iteration of the inner monitoring loop of `main`. -/
def mainIteration (st : DetectorState) (current_time weight_kg force_newtons : ℚ)
    (speedRead : Except String ℚ) (fsrRead : Except String (ℚ × ℚ × ℚ))
    (utc_time local_time : String) (response : Except String Nat) :
    DetectorState × Option KickEventOutput :=
  let r := detect_impact st current_time weight_kg
  if r.1 then
    let kick_weight := weight_kg
    let kick_force := force_newtons
    let speed : ℚ := match speedRead with
      | Except.ok s => s
      | Except.error _ => 0
    let max_fsr_percent := read_fsr_sensors fsrRead
    let accuracy := determine_accuracy max_fsr_percent
    let kick_type := determine_kick_type kick_weight
    let payload : KickRecord :=
      { force_of_kick_in_newton := kick_force
        pressure_at_edges_in_percentage := max_fsr_percent
        accuracy := accuracy
        speed_of_kick_in_meters_per_second := speed
        timestamp_utc := utc_time
        timestamp_local := local_time
        kick_detection_state := "kick_detected" }
    (r.2, some { record := payload, kick_type := kick_type,
                 upload := upload_to_firebase response })
  else
    (r.2, none)

/-! ## Helper lemmas about the detector -/

/-- The buffer kept by `detect_impact` after its trimming step has fewer
than 2 entries exactly when the pre-call history was empty. -/
lemma trim_length_lt_iff (l : List ℚ) (w : ℚ) :
    (if 3 < (l ++ [w]).length then (l ++ [w]).tail else l ++ [w]).length < 2 ↔
      l = [] := by
  rcases l with _ | ⟨a, l⟩
  · simp
  · have h2 : 2 ≤ (if 3 < ((a :: l) ++ [w]).length then ((a :: l) ++ [w]).tail
        else (a :: l) ++ [w]).length := by
      split_ifs with h
      · simp only [List.length_append, List.length_cons, List.length_tail] at h ⊢
        omega
      · simp [List.length_append]
    simp only [List.cons_ne_nil, iff_false, not_lt]
    omega

/-- The Python index `force_history[-2]` taken after append-and-trim is the
last element of the pre-call history. -/
lemma trim_penult (l : List ℚ) (w : ℚ) :
    (if 3 < (l ++ [w]).length then (l ++ [w]).tail
      else l ++ [w]).dropLast.getLast? = l.getLast? := by
  split_ifs with h
  · rcases l with _ | ⟨a, l⟩
    · simp at h
    · rcases l with _ | ⟨b, l⟩
      · simp at h
      · have htail : ((a :: b :: l) ++ [w]).tail = (b :: l) ++ [w] := rfl
        rw [htail, List.dropLast_concat, List.getLast?_cons_cons]
  · rw [List.dropLast_concat]

/-- After append-and-trim the buffer always ends with the current sample. -/
lemma trim_getLast (l : List ℚ) (w : ℚ) :
    (if 3 < (l ++ [w]).length then (l ++ [w]).tail else l ++ [w]).getLast? =
      some w := by
  split_ifs with h
  · rcases l with _ | ⟨a, l⟩
    · simp at h
    · have htail : ((a :: l) ++ [w]).tail = l ++ [w] := rfl
      rw [htail, List.getLast?_concat]
  · exact List.getLast?_concat _

/-- Characterization of the fire decision of `detect_impact`: it fires iff
the pre-call history is nonempty (i.e. the appended buffer holds ≥ 2
samples), the weight reaches the threshold, the weight strictly exceeds
the previous sample, and the cooldown has elapsed. -/
lemma detect_spec (st : DetectorState) (t w : ℚ) :
    (detect_impact st t w).1 = true ↔
      st.force_history ≠ [] ∧
      KICK_THRESHOLD_KG ≤ w ∧
      (∃ prev, st.force_history.getLast? = some prev ∧ prev < w) ∧
      KICK_COOLDOWN ≤ t - st.last_kick_time := by
  have hlen := trim_length_lt_iff st.force_history w
  have hpen := trim_penult st.force_history w
  simp only [detect_impact]
  generalize hT : (if 3 < (st.force_history ++ [w]).length
      then (st.force_history ++ [w]).tail else st.force_history ++ [w]) = T at hlen hpen
  split_ifs with h1 h2 h3
  · exact iff_of_false (by simp) (fun hc => hc.1 (hlen.mp h1))
  · exact iff_of_false (by simp) (fun hc => absurd hc.2.2.2 (by linarith))
  · rcases hL : T.dropLast.getLast? with _ | p
    · refine iff_of_false (by simp) ?_
      rintro ⟨-, -, ⟨prev, hprev, -⟩, -⟩
      rw [← hpen, hL] at hprev
      exact Option.noConfusion hprev
    · by_cases hpw : p < w
      · refine iff_of_true (by simp [hpw]) ?_
        exact ⟨fun he => h1 (hlen.mpr he), h3, ⟨p, by rw [← hpen, hL], hpw⟩,
          by linarith [not_lt.mp h2]⟩
      · refine iff_of_false (by simp [hpw]) ?_
        rintro ⟨-, -, ⟨prev, hprev, hlt⟩, -⟩
        rw [← hpen, hL, Option.some_inj] at hprev
        exact hpw (hprev ▸ hlt)
  · exact iff_of_false (by simp) (fun hc => h3 hc.2.1)

/-- The post-call history of `detect_impact` is the appended-and-trimmed
buffer, in every branch. -/
lemma detect_history (st : DetectorState) (t w : ℚ) :
    (detect_impact st t w).2.force_history =
      if 3 < (st.force_history ++ [w]).length then (st.force_history ++ [w]).tail
      else st.force_history ++ [w] := by
  simp only [detect_impact]
  generalize (if 3 < (st.force_history ++ [w]).length
      then (st.force_history ++ [w]).tail else st.force_history ++ [w]) = T
  split_ifs <;> try rfl
  rcases T.dropLast.getLast? with _ | p
  · rfl
  · dsimp only
    split_ifs <;> rfl

/-- The post-call history always ends with the sample just consumed. -/
lemma detect_history_getLast (st : DetectorState) (t w : ℚ) :
    (detect_impact st t w).2.force_history.getLast? = some w := by
  rw [detect_history]
  exact trim_getLast _ _

/-- On fire, the cooldown had elapsed and the stored last-kick time becomes
the firing sample's time. -/
lemma detect_fire_state (st : DetectorState) (t w : ℚ)
    (h : (detect_impact st t w).1 = true) :
    st.last_kick_time + KICK_COOLDOWN ≤ t ∧
      (detect_impact st t w).2.last_kick_time = t := by
  revert h
  simp only [detect_impact]
  generalize (if 3 < (st.force_history ++ [w]).length
      then (st.force_history ++ [w]).tail else st.force_history ++ [w]) = T
  split_ifs with h1 h2 h3
  · intro h; exact absurd h (by simp)
  · intro h; exact absurd h (by simp)
  · rcases T.dropLast.getLast? with _ | p
    · intro h; exact absurd h (by simp)
    · dsimp only
      split_ifs with hpw
      · intro _; exact ⟨by linarith [not_lt.mp h2], rfl⟩
      · intro h; exact absurd h (by simp)
  · intro h; exact absurd h (by simp)

/-- On no-fire, the stored last-kick time is unchanged. -/
lemma detect_nofire_state (st : DetectorState) (t w : ℚ)
    (h : (detect_impact st t w).1 = false) :
    (detect_impact st t w).2.last_kick_time = st.last_kick_time := by
  revert h
  simp only [detect_impact]
  generalize (if 3 < (st.force_history ++ [w]).length
      then (st.force_history ++ [w]).tail else st.force_history ++ [w]) = T
  split_ifs <;> try (intro _; rfl)
  rcases T.dropLast.getLast? with _ | p
  · intro _; rfl
  · dsimp only
    split_ifs with hpw
    · intro h; exact absurd h (by simp)
    · intro _; rfl

/-- Every fire time of a run is at least one cooldown after the initial
last-kick timestamp. -/
lemma fireTimes_lower_bound (samples : List (ℚ × ℚ)) :
    ∀ (st : DetectorState) (b : ℚ), b ∈ fireTimes st samples →
      st.last_kick_time + KICK_COOLDOWN ≤ b := by
  induction samples with
  | nil => intro st b h; simp [fireTimes] at h
  | cons s rest ih =>
      obtain ⟨t, w⟩ := s
      intro st b h
      simp only [fireTimes] at h
      by_cases hf : (detect_impact st t w).1 = true
      · obtain ⟨hcool, hlast⟩ := detect_fire_state st t w hf
        rw [if_pos hf] at h
        simp only [List.mem_cons] at h
        rcases h with rfl | h
        · exact hcool
        · have hb := ih _ _ h
          rw [hlast] at hb
          have hC : (0 : ℚ) ≤ KICK_COOLDOWN := by norm_num [KICK_COOLDOWN]
          linarith
      · have hf' : (detect_impact st t w).1 = false := by
          revert hf; cases (detect_impact st t w).1 <;> simp
        rw [if_neg (by simp [hf'])] at h
        have hb := ih _ _ h
        rw [detect_nofire_state st t w hf'] at hb
        exact hb

/-- Successive fire times of any run are spaced by at least the cooldown,
pairwise. -/
lemma fireTimes_pairwise (samples : List (ℚ × ℚ)) :
    ∀ st : DetectorState,
      List.Pairwise (fun a b => a + KICK_COOLDOWN ≤ b) (fireTimes st samples) := by
  induction samples with
  | nil => intro st; simp [fireTimes]
  | cons s rest ih =>
      obtain ⟨t, w⟩ := s
      intro st
      simp only [fireTimes]
      by_cases hf : (detect_impact st t w).1 = true
      · rw [if_pos hf]
        refine List.Pairwise.cons (fun b hb => ?_) (ih _)
        have := fireTimes_lower_bound rest _ b hb
        rw [(detect_fire_state st t w hf).2] at this
        exact this
      · have hf' : (detect_impact st t w).1 = false := by
          revert hf; cases (detect_impact st t w).1 <;> simp
        rw [if_neg (by simp [hf'])]
        exact ih _

/-- A run whose weights strictly decrease (and whose first weight is below
the last buffered sample, if any) never fires. -/
lemma fireTimes_nil_of_decreasing (samples : List (ℚ × ℚ)) :
    ∀ st : DetectorState,
      List.Chain' (fun a b : ℚ => b < a) (samples.map Prod.snd) →
      (∀ tw ∈ samples.head?, ∀ p ∈ st.force_history.getLast?, tw.2 < p) →
      fireTimes st samples = [] := by
  induction samples with
  | nil => intro st _ _; rfl
  | cons s rest ih =>
      obtain ⟨t, w⟩ := s
      intro st hchain hhead
      have hf : (detect_impact st t w).1 = false := by
        by_contra hne
        have htrue : (detect_impact st t w).1 = true := by
          revert hne; cases (detect_impact st t w).1 <;> simp
        obtain ⟨-, -, ⟨prev, hprev, hlt⟩, -⟩ := (detect_spec st t w).mp htrue
        have hwp := hhead (t, w) rfl prev hprev
        simp only at hwp
        linarith
      simp only [fireTimes]
      rw [if_neg (by simp [hf])]
      apply ih
      · simpa using hchain.tail
      · intro tw htw p hp
        rw [detect_history_getLast st t w] at hp
        have hpw : w = p := by simpa using hp
        subst hpw
        have hmap : (rest.map Prod.snd).head? = some tw.2 := by
          rcases rest with _ | ⟨r, rest⟩
          · simp at htw
          · have : r = tw := by simpa using htw
            subst this
            simp
        have := (List.chain'_cons'.mp (by simpa using hchain)).1 tw.2 hmap
        exact this

/-- A run whose weights all stay below the kick threshold never fires. -/
lemma fireTimes_nil_of_subthreshold (samples : List (ℚ × ℚ)) :
    ∀ st : DetectorState, (∀ s ∈ samples, s.2 < KICK_THRESHOLD_KG) →
      fireTimes st samples = [] := by
  induction samples with
  | nil => intro st _; rfl
  | cons s rest ih =>
      obtain ⟨t, w⟩ := s
      intro st hall
      have hf : (detect_impact st t w).1 = false := by
        by_contra hne
        have htrue : (detect_impact st t w).1 = true := by
          revert hne; cases (detect_impact st t w).1 <;> simp
        obtain ⟨-, hth, -, -⟩ := (detect_spec st t w).mp htrue
        have := hall (t, w) (List.mem_cons_self _ _)
        simp only at this
        linarith
      simp only [fireTimes]
      rw [if_neg (by simp [hf])]
      exact ih _ (fun s hs => hall s (List.mem_cons_of_mem _ hs))

/-! ## Claim theorems -/

/-- C1: `detect_impact` fires iff the buffer (current sample included)
holds at least 2 samples, the weight reaches the 4.0 kg threshold, the
current sample strictly exceeds the previous one, and at least the
cooldown has elapsed since the last detection; and on fire, `main`
classifies and records exactly the sample that fired (no re-read). -/
theorem impact_fire_iff_and_atomic_capture (st : DetectorState)
    (t w fn : ℚ) (speedRead : Except String ℚ)
    (fsrRead : Except String (ℚ × ℚ × ℚ)) (u l : String)
    (resp : Except String Nat) :
    ((detect_impact st t w).1 = true ↔
      2 ≤ (st.force_history ++ [w]).length ∧
      KICK_THRESHOLD_KG ≤ w ∧
      (∃ prev, st.force_history.getLast? = some prev ∧ prev < w) ∧
      KICK_COOLDOWN ≤ t - st.last_kick_time) ∧
    ((detect_impact st t w).1 = true →
      ∃ ev : KickEventOutput,
        (mainIteration st t w fn speedRead fsrRead u l resp).2 = some ev ∧
        ev.record.force_of_kick_in_newton = fn ∧
        ev.kick_type = determine_kick_type w) := by
  constructor
  · rw [detect_spec]
    have hlen : 2 ≤ (st.force_history ++ [w]).length ↔ st.force_history ≠ [] := by
      rcases st.force_history with _ | ⟨a, rest⟩ <;> simp
    rw [hlen]
  · intro hf
    simp only [mainIteration, hf, if_true]
    exact ⟨_, rfl, rfl, rfl⟩

/-- Witness for `impact_fire_iff_and_atomic_capture` at a concrete firing
sample. -/
theorem impact_fire_witness :
    ∃ ev : KickEventOutput,
      (mainIteration ⟨[0], 0⟩ 10 (9/2) 44 (Except.ok 3) (Except.ok (0, 0, 0))
        "u" "l" (Except.ok 200)).2 = some ev ∧
      ev.record.force_of_kick_in_newton = 44 ∧
      ev.kick_type = determine_kick_type (9/2) :=
  (impact_fire_iff_and_atomic_capture ⟨[0], 0⟩ 10 (9/2) 44 (Except.ok 3)
    (Except.ok (0, 0, 0)) "u" "l" (Except.ok 200)).2
    (by norm_num [detect_impact, KICK_COOLDOWN, KICK_THRESHOLD_KG])

/-- C2: for every sample sequence from every starting state, fires are
pairwise at least one cooldown apart; and starting from the initial state,
a strictly decreasing weight sequence never fires, nor does a flat
sequence below the threshold. -/
theorem detector_cooldown_and_quiescence (st : DetectorState)
    (samples : List (ℚ × ℚ)) :
    List.Pairwise (fun a b => a + KICK_COOLDOWN ≤ b) (fireTimes st samples) ∧
    (List.Chain' (fun a b : ℚ => b < a) (samples.map Prod.snd) →
      fireTimes initState samples = []) ∧
    (∀ c : ℚ, c < KICK_THRESHOLD_KG → (∀ s ∈ samples, s.2 = c) →
      fireTimes initState samples = []) := by
  refine ⟨fireTimes_pairwise samples st, fun hchain => ?_, fun c hc hall => ?_⟩
  · exact fireTimes_nil_of_decreasing samples initState hchain
      (by intro tw _ p hp; simp [initState] at hp)
  · exact fireTimes_nil_of_subthreshold samples initState
      (fun s hs => by rw [hall s hs]; exact hc)

/-- Witness for `detector_cooldown_and_quiescence`: the pairwise spacing of
a concrete run, a concrete strictly decreasing run, and a concrete flat
sub-threshold run. -/
theorem detector_cooldown_witness :
    List.Pairwise (fun a b => a + KICK_COOLDOWN ≤ b)
      (fireTimes initState [(100, 5), (101, 3), (102, 6)]) ∧
    fireTimes initState [(0, 3), (1, 2)] = [] ∧
    fireTimes initState [(0, 2), (1, 2)] = [] :=
  ⟨(detector_cooldown_and_quiescence initState
      [(100, 5), (101, 3), (102, 6)]).1,
   (detector_cooldown_and_quiescence initState [(0, 3), (1, 2)]).2.1
     (by simp only [List.map_cons, List.map_nil]
         exact List.chain'_cons.mpr ⟨by norm_num, List.chain'_singleton _⟩),
   (detector_cooldown_and_quiescence initState [(0, 2), (1, 2)]).2.2 2
     (by norm_num [KICK_THRESHOLD_KG]) (by decide)⟩

/-- C3: `determine_kick_type` maps `[4,5)` to Light, `[5,6.5]` to Medium,
`(6.5,∞)` to Strong, and everything else (`w < 4`) to no-contact; in
particular 3.99 → NoContact, 4.0 → Light, 4.999 → Light, 5.0 → Medium,
6.5 → Medium, 6.50001 → Strong. -/
theorem kick_type_bands (w : ℚ) :
    (4 ≤ w → w < 5 → determine_kick_type w = "Light Kick") ∧
    (5 ≤ w → w ≤ 6.5 → determine_kick_type w = "Medium Kick") ∧
    (6.5 < w → determine_kick_type w = "Strong Kick") ∧
    (w < 4 → determine_kick_type w = "No or very light contact") ∧
    determine_kick_type 3.99 = "No or very light contact" ∧
    determine_kick_type 4 = "Light Kick" ∧
    determine_kick_type 4.999 = "Light Kick" ∧
    determine_kick_type 5 = "Medium Kick" ∧
    determine_kick_type 6.5 = "Medium Kick" ∧
    determine_kick_type 6.50001 = "Strong Kick" := by
  refine ⟨?_, ?_, ?_, ?_, by norm_num [determine_kick_type],
    by norm_num [determine_kick_type], by norm_num [determine_kick_type],
    by norm_num [determine_kick_type], by norm_num [determine_kick_type],
    by norm_num [determine_kick_type]⟩
  · intro h1 h2
    simp only [determine_kick_type, if_pos (And.intro h1 h2)]
  · intro h1 h2
    have hnot : ¬ (4 ≤ w ∧ w < 5) := by
      rintro ⟨-, hlt⟩; linarith
    simp only [determine_kick_type, if_neg hnot, if_pos (And.intro h1 h2)]
  · intro h1
    have h2 : ¬ (4 ≤ w ∧ w < 5) := by rintro ⟨-, hlt⟩; linarith
    have h3 : ¬ (5 ≤ w ∧ w ≤ 6.5) := by rintro ⟨-, hle⟩; linarith
    simp only [determine_kick_type, if_neg h2, if_neg h3, if_pos h1]
  · intro h1
    have h2 : ¬ (4 ≤ w ∧ w < 5) := by rintro ⟨hge, -⟩; linarith
    have h3 : ¬ (5 ≤ w ∧ w ≤ 6.5) := by rintro ⟨hge, -⟩; linarith
    have h4 : ¬ (6.5 < w) := by linarith
    simp only [determine_kick_type, if_neg h2, if_neg h3, if_neg h4]

/-- Witness for `kick_type_bands`: each banded implication discharged at a
concrete weight. -/
theorem kick_type_bands_witness :
    determine_kick_type 4.5 = "Light Kick" ∧
    determine_kick_type 6 = "Medium Kick" ∧
    determine_kick_type 7 = "Strong Kick" ∧
    determine_kick_type 1 = "No or very light contact" :=
  ⟨(kick_type_bands 4.5).1 (by norm_num) (by norm_num),
   (kick_type_bands 6).2.1 (by norm_num) (by norm_num),
   (kick_type_bands 7).2.2.1 (by norm_num),
   (kick_type_bands 1).2.2.2.1 (by norm_num)⟩

/-- C5: `determine_accuracy` returns "lower accuracy" iff the max FSR
percentage is ≥ 50.0, and "higher accuracy" iff it is < 50.0; in
particular 49.9 → higher, 50.0 → lower. -/
theorem accuracy_threshold (p : ℚ) :
    (determine_accuracy p = "lower accuracy" ↔ 50 ≤ p) ∧
    (determine_accuracy p = "higher accuracy" ↔ p < 50) ∧
    determine_accuracy 49.9 = "higher accuracy" ∧
    determine_accuracy 50 = "lower accuracy" := by
  refine ⟨?_, ?_, by norm_num [determine_accuracy, WARNING_THRESHOLD],
    by norm_num [determine_accuracy, WARNING_THRESHOLD]⟩
  · unfold determine_accuracy WARNING_THRESHOLD
    split_ifs with h
    · simp [h]
    · simp only [String.reduceEq, false_iff]; exact h
  · unfold determine_accuracy WARNING_THRESHOLD
    split_ifs with h
    · simp only [String.reduceEq, false_iff, not_lt]; exact h
    · simpa using lt_of_not_le h

/-- C6 counterexample: the configured cooldown default is `KICK_COOLDOWN =
1.0`, not 2.0 seconds, so the claimed pair (threshold 4.0, cooldown 2.0)
is false of the code. -/
theorem cooldown_default_cex :
    ¬ (KICK_THRESHOLD_KG = 4 ∧ KICK_COOLDOWN = 2) := by
  rintro ⟨-, h⟩
  norm_num [KICK_COOLDOWN] at h

/-- C6 (amended): the configured defaults are a threshold of 4.0 kg and a
cooldown of 1.0 seconds. -/
theorem detector_defaults :
    KICK_THRESHOLD_KG = 4 ∧ KICK_COOLDOWN = 1 :=
  ⟨rfl, rfl⟩

/-- C10: when the FSR sensor read raises, `read_fsr_sensors` reports 0.0,
and the accuracy classifier therefore grades the event "higher accuracy"
(0.0 < 50.0), whatever exception message was raised. -/
theorem fsr_failure_accuracy (e : String) :
    read_fsr_sensors (Except.error e) = 0 ∧
    determine_accuracy (read_fsr_sensors (Except.error e)) = "higher accuracy" := by
  constructor
  · rfl
  · norm_num [read_fsr_sensors, determine_accuracy, WARNING_THRESHOLD]

/-- C4: `fsr_percentage` always lands in [0,100]; a degenerate calibration
(`f_max ≤ f_min`) yields exactly 0; otherwise the result is the raw value
clamped into `[f_min, f_max]` and linearly rescaled to `[0,100]` (the
final floating-point-safety clamp is a no-op).  The function is total. -/
theorem normalize_bounds (raw f_min f_max : ℚ) :
    0 ≤ fsr_percentage raw f_min f_max ∧
    fsr_percentage raw f_min f_max ≤ 100 ∧
    (f_max ≤ f_min → fsr_percentage raw f_min f_max = 0) ∧
    (f_min < f_max →
      fsr_percentage raw f_min f_max =
        (max f_min (min f_max raw) - f_min) / (f_max - f_min) * 100) := by
  simp only [fsr_percentage]
  split_ifs with h
  · exact ⟨le_refl 0, by norm_num, fun _ => rfl,
      fun hlt => absurd hlt (not_lt.mpr h)⟩
  · push_neg at h
    have h1 : f_min ≤ max f_min (min f_max raw) := le_max_left _ _
    have h2 : max f_min (min f_max raw) ≤ f_max :=
      max_le (le_of_lt h) (min_le_left _ _)
    have hdpos : 0 < f_max - f_min := by linarith
    have hq0 : 0 ≤ (max f_min (min f_max raw) - f_min) / (f_max - f_min) :=
      div_nonneg (by linarith) (le_of_lt hdpos)
    have hq1 : (max f_min (min f_max raw) - f_min) / (f_max - f_min) ≤ 1 := by
      rw [div_le_one hdpos]; linarith
    have hp0 : 0 ≤ (max f_min (min f_max raw) - f_min) / (f_max - f_min) * 100 :=
      mul_nonneg hq0 (by norm_num)
    have hp100 :
        (max f_min (min f_max raw) - f_min) / (f_max - f_min) * 100 ≤ 100 := by
      calc (max f_min (min f_max raw) - f_min) / (f_max - f_min) * 100
          ≤ 1 * 100 := mul_le_mul_of_nonneg_right hq1 (by norm_num)
        _ = 100 := by norm_num
    exact ⟨le_max_left 0 _, max_le (by norm_num) (min_le_left _ _),
      fun hle => absurd hle (not_le.mpr h),
      fun _ => by rw [min_eq_right hp100, max_eq_right hp0]⟩

/-- Witness for `normalize_bounds`: the degenerate-calibration branch and
the rescaling branch, each at a concrete input. -/
theorem normalize_bounds_witness :
    fsr_percentage 5 10 3 = 0 ∧ fsr_percentage 50 0 100 = 50 :=
  ⟨(normalize_bounds 5 10 3).2.2.1 (by norm_num),
   by have h := (normalize_bounds 50 0 100).2.2.2 (by norm_num)
      rw [h]; norm_num [max_def, min_def]⟩

/-- C7 counterexample: with a negative known weight (−100 g), both reading
providers succeeding, calibration does NOT fail — it saves a (negative)
scale ratio — so "fails whenever knownWeightGrams ≤ 0" is false of the
code. -/
theorem calibration_negative_weight_cex :
    (-100 : ℚ) ≤ 0 ∧
    calibrate_load_cell (Except.ok 0) (Except.ok 500) (-100) =
      CalibResult.saved 0 (-5) := by
  refine ⟨by norm_num, ?_⟩
  norm_num [calibrate_load_cell]

/-- C7 (amended): calibration computes the scale ratio as the mean reading
under the known weight divided by `known_weight_grams`; it fails without
crashing (the exception is caught and reported) when the known weight is
exactly 0 (Python `ZeroDivisionError`) or when either reading provider
raises; a strictly negative known weight is not rejected. -/
theorem calibration_behavior (z r w : ℚ) (e : String) :
    (w ≠ 0 → calibrate_load_cell (Except.ok z) (Except.ok r) w =
      CalibResult.saved z (r / w)) ∧
    calibrate_load_cell (Except.ok z) (Except.ok r) 0 =
      CalibResult.reported "ZeroDivisionError: float division by zero" ∧
    (∀ pr : Except String ℚ, calibrate_load_cell (Except.error e) pr w =
      CalibResult.reported e) ∧
    calibrate_load_cell (Except.ok z) (Except.error e) w =
      CalibResult.reported e := by
  refine ⟨fun hw => ?_, ?_, fun pr => rfl, rfl⟩
  · simp only [calibrate_load_cell, if_neg hw]
  · simp [calibrate_load_cell]

/-- Witness for `calibration_behavior` at a concrete nonzero weight. -/
theorem calibration_behavior_witness :
    calibrate_load_cell (Except.ok 7) (Except.ok 1000) 500 =
      CalibResult.saved 7 2 := by
  have h := (calibration_behavior 7 1000 500 "e").1 (by norm_num)
  rw [h]; norm_num

/-- C8: if the BLE speed characteristic read raises, the speed defaults to
0.0 and the event record is still assembled and handed to the upload
step; the auxiliary failure never suppresses the event. -/
theorem speed_read_failure_defaults (st : DetectorState) (t w fn : ℚ)
    (e : String) (fsrRead : Except String (ℚ × ℚ × ℚ)) (u l : String)
    (resp : Except String Nat)
    (hf : (detect_impact st t w).1 = true) :
    ∃ ev : KickEventOutput,
      (mainIteration st t w fn (Except.error e) fsrRead u l resp).2 = some ev ∧
      ev.record.speed_of_kick_in_meters_per_second = 0 ∧
      ev.upload = upload_to_firebase resp := by
  simp only [mainIteration, hf, if_true]
  exact ⟨_, rfl, rfl, rfl⟩

/-- Witness for `speed_read_failure_defaults` at a concrete firing sample
with a failed BLE read. -/
theorem speed_read_failure_witness :
    ∃ ev : KickEventOutput,
      (mainIteration ⟨[0], 0⟩ 10 5 49 (Except.error "BLE timeout")
        (Except.ok (0, 0, 0)) "u" "l" (Except.ok 200)).2 = some ev ∧
      ev.record.speed_of_kick_in_meters_per_second = 0 ∧
      ev.upload = upload_to_firebase (Except.ok 200) :=
  speed_read_failure_defaults ⟨[0], 0⟩ 10 5 49 "BLE timeout"
    (Except.ok (0, 0, 0)) "u" "l" (Except.ok 200)
    (by norm_num [detect_impact, KICK_COOLDOWN, KICK_THRESHOLD_KG])

/-- C9: the upload is a single attempt with a 10-second timeout; a non-200
response is reported as a logged error value and a transport exception is
caught, never re-raised; and the detector state produced by the loop
iteration is the same whatever the upload response was (force history and
last-kick timestamp are untouched by the upload). -/
theorem upload_failure_isolated (st : DetectorState) (t w fn : ℚ)
    (sp : Except String ℚ) (fsrRead : Except String (ℚ × ℚ × ℚ))
    (u l : String) (resp resp' : Except String Nat) :
    UPLOAD_TIMEOUT_SECONDS = 10 ∧
    (mainIteration st t w fn sp fsrRead u l resp).1 =
      (mainIteration st t w fn sp fsrRead u l resp').1 ∧
    (∀ code : Nat, code ≠ 200 →
      upload_to_firebase (Except.ok code) = UploadOutcome.httpError code) ∧
    (∀ msg : String, upload_to_firebase (Except.error msg) =
      UploadOutcome.transportError msg) := by
  refine ⟨rfl, ?_, fun code hc => ?_, fun msg => rfl⟩
  · simp only [mainIteration]
    by_cases hf : (detect_impact st t w).1 = true
    · rw [if_pos hf, if_pos hf]
    · rw [if_neg hf, if_neg hf]
  · simp only [upload_to_firebase, if_neg hc]

/-- Witness for `upload_failure_isolated`: concrete transport failure and
non-200 response leave identical detector states. -/
theorem upload_failure_witness :
    UPLOAD_TIMEOUT_SECONDS = 10 ∧
    (mainIteration initState 10 5 49 (Except.ok 3) (Except.ok (0, 0, 0))
      "u" "l" (Except.error "conn")).1 =
      (mainIteration initState 10 5 49 (Except.ok 3) (Except.ok (0, 0, 0))
        "u" "l" (Except.ok 500)).1 ∧
    upload_to_firebase (Except.ok 500) = UploadOutcome.httpError 500 ∧
    upload_to_firebase (Except.error "conn") =
      UploadOutcome.transportError "conn" :=
  ⟨(upload_failure_isolated initState 10 5 49 (Except.ok 3)
      (Except.ok (0, 0, 0)) "u" "l" (Except.error "conn") (Except.ok 500)).1,
   (upload_failure_isolated initState 10 5 49 (Except.ok 3)
      (Except.ok (0, 0, 0)) "u" "l" (Except.error "conn") (Except.ok 500)).2.1,
   (upload_failure_isolated initState 10 5 49 (Except.ok 3)
      (Except.ok (0, 0, 0)) "u" "l" (Except.error "conn")
      (Except.ok 500)).2.2.1 500 (by norm_num),
   (upload_failure_isolated initState 10 5 49 (Except.ok 3)
      (Except.ok (0, 0, 0)) "u" "l" (Except.error "conn")
      (Except.ok 500)).2.2.2 "conn"⟩
